import Mathlib

/-!
Shallow embedding of the mygpoclient-rs library (a typed client for the
gpodder.net podcast-synchronization API) and proofs about its claims.

The embedding models the request-building and JSON-(de)serialization parts
of the code: each operation on a client value is translated to a pure
function producing the outgoing `Request`; serde-derived encoders and
decoders are translated to explicit `Json` functions. The underlying HTTP
transport is modelled only at its boundary (a request value goes out, a
transport result comes back).
-/

namespace Mygpo

/-- JSON values, the wire format of all requests and responses. -/
inductive Json : Type where
  | str (s : String)
  | num (n : Nat)
  | jbool (b : Bool)
  | null
  | arr (xs : List Json)
  | obj (fields : List (String × Json))
deriving Repr

/-- First field with the given key in a JSON object field list
(the lookup performed by serde when deserializing by field name). -/
def findField : List (String × Json) → String → Option Json
  | [], _ => none
  | (k, v) :: rest, key => if k = key then some v else findField rest key

/-- Field lookup on a JSON value: only objects have fields. -/
def Json.getField (j : Json) (key : String) : Option Json :=
  match j with
  | .obj fields => findField fields key
  | _ => none

/-- Whether a JSON object carries the given key at all. -/
def Json.hasField (j : Json) (key : String) : Bool :=
  (j.getField key).isSome

/-- Expect a JSON string. -/
def asStr : Json → Option String
  | .str s => some s
  | _ => none

/-- Expect a JSON number. -/
def asNat : Json → Option Nat
  | .num n => some n
  | _ => none

/-- A parsed URL as held by the `url` crate: a scheme and the remainder of
the serialized form. `url::Url` always serializes as `scheme:rest`, and a
scheme never holds a colon. -/
structure Url : Type where
  scheme : String
  rest : String
deriving DecidableEq, Repr

/-- The serialized form of a URL (`Url::as_str` / `Url::to_string`). -/
def Url.render (u : Url) : String := u.scheme ++ ":" ++ u.rest

/-- Split a character list at the first colon, failing when no colon occurs
(`url::Url::parse` fails on strings without a scheme separator, in
particular on the empty string). -/
def splitColon : List Char → Option (List Char × List Char)
  | [] => none
  | c :: cs =>
    if c = ':' then some ([], cs)
    else
      match splitColon cs with
      | some (a, b) => some (c :: a, b)
      | none => none

/-- `url::Url::parse`: scheme before the first colon, remainder after it;
no colon at all is a parse error. -/
def urlParse (s : String) : Option Url :=
  match splitColon s.data with
  | some (a, b) => some ⟨⟨a⟩, ⟨b⟩⟩
  | none => none

/-- A UTC timestamp as rendered on the wire by chrono
(`NaiveDateTime` serializes as its ISO-8601 string). -/
structure NaiveDateTime : Type where
  iso : String
deriving DecidableEq, Repr

/-- The decimal digit character for a value below ten. -/
def natDigitChar (n : Nat) : Char := Char.ofNat (48 + n)

/-- Decimal digits of a natural number, most significant first
(the rendering performed by `to_string` on Rust unsigned integers). -/
def natToDigits (n : Nat) : List Char :=
  if h : n < 10 then [natDigitChar n]
  else
    have : n / 10 < n := Nat.div_lt_self (by omega) (by omega)
    natToDigits (n / 10) ++ [natDigitChar (n % 10)]

/-- Decimal rendering of a natural number (`u8`/`u16`/`u64::to_string`). -/
def natRepr (n : Nat) : String := ⟨natToDigits n⟩

/-- `bool::to_string`. -/
def boolString : Bool → String
  | true => "true"
  | false => "false"

/-- Uppercase hexadecimal digit for a value below sixteen. -/
def hexDigit (n : Nat) : Char :=
  if n < 10 then Char.ofNat (48 + n) else Char.ofNat (55 + n)

/-- Characters kept verbatim by `form_urlencoded::byte_serialize`. -/
def isUrlSafe (c : Char) : Bool :=
  c.isAlphanum || c = '*' || c = '-' || c = '.' || c = '_'

/-- `form_urlencoded::byte_serialize` over a string (ASCII model): safe
characters kept, space becomes a plus, all else percent-encoded. -/
def byteSerialize (s : String) : String :=
  ⟨s.data.foldr
    (fun c acc =>
      (if isUrlSafe c then [c]
       else if c = ' ' then ['+']
       else ['%', hexDigit (c.toNat % 256 / 16), hexDigit (c.toNat % 16)]) ++ acc)
    []⟩

/-- Lexicographic comparison of character lists, the model of
`Ord::cmp` on Rust strings. -/
def cmpChars : List Char → List Char → Ordering
  | [], [] => .eq
  | [], _ :: _ => .lt
  | _ :: _, [] => .gt
  | a :: as, b :: bs =>
    if a < b then .lt else if b < a then .gt else cmpChars as bs

/-- `Ord::cmp` on strings. -/
def cmpString (a b : String) : Ordering := cmpChars a.data b.data

/-- HTTP method of an outgoing request. -/
inductive Method : Type where
  | GET
  | PUT
  | POST
deriving DecidableEq, Repr

/-- An outgoing HTTP request as assembled by the transport layer in
src/client.rs: method, URL, query parameters, the optional Basic-auth
credential pair, the product `User-Agent` header and the optional JSON
body. -/
structure Request : Type where
  method : Method
  url : String
  query : List (String × String)
  basicAuth : Option (String × String)
  userAgent : String
  body : Option Json
deriving Repr

/-- `CARGO_PKG_NAME`, the crate name baked into the `User-Agent` header. -/
def packageName : String := "mygpoclient"

/-- `CARGO_PKG_VERSION`; the exact value is Cargo metadata and constant
across all client values of one build. -/
def packageVersion : String := "0.1.0"

/-- The fixed product `User-Agent` header value sent on every request. -/
def userAgent : String := packageName ++ "/" ++ packageVersion

/-- Client without authentication (src/client.rs `PublicClient`); its only
field is the transport handle, which carries no request-relevant state. -/
structure PublicClient : Type where
deriving DecidableEq, Repr

/-- Client authenticated with username and password
(src/client.rs `AuthenticatedClient`). -/
structure AuthenticatedClient : Type where
  username : String
  password : String
  public_client : PublicClient
deriving DecidableEq, Repr

/-- Device-specific client wrapping an `AuthenticatedClient`
(src/client.rs `DeviceClient`). -/
structure DeviceClient : Type where
  device_id : String
  authenticated_client : AuthenticatedClient
deriving DecidableEq, Repr

/-- `PublicClient::new`. -/
def PublicClient.new : PublicClient := ⟨⟩

/-- `AuthenticatedClient::new`. -/
def AuthenticatedClient.new (username password : String) : AuthenticatedClient :=
  ⟨username, password, PublicClient.new⟩

/-- `DeviceClient::new`. -/
def DeviceClient.new (username password device_id : String) : DeviceClient :=
  ⟨device_id, AuthenticatedClient.new username password⟩

/-- `PublicClient::get_with_query`: a GET with the `User-Agent` header and
no credentials. -/
def PublicClient.get_with_query (_c : PublicClient) (url : String)
    (query : List (String × String)) : Request :=
  { method := .GET, url := url, query := query, basicAuth := none
    userAgent := userAgent, body := none }

/-- `PublicClient::get`: a GET with an empty query. -/
def PublicClient.get (c : PublicClient) (url : String) : Request :=
  c.get_with_query url []

/-- `AuthenticatedClient::get_with_query`: a GET carrying the Basic-auth
credentials and the `User-Agent` header. -/
def AuthenticatedClient.get_with_query (c : AuthenticatedClient) (url : String)
    (query : List (String × String)) : Request :=
  { method := .GET, url := url, query := query
    basicAuth := some (c.username, c.password)
    userAgent := userAgent, body := none }

/-- `AuthenticatedClient::get`: a GET with an empty query. -/
def AuthenticatedClient.get (c : AuthenticatedClient) (url : String) : Request :=
  c.get_with_query url []

/-- `AuthenticatedClient::put`: a PUT with credentials, header and a JSON
body. -/
def AuthenticatedClient.put (c : AuthenticatedClient) (url : String)
    (json : Json) : Request :=
  { method := .PUT, url := url, query := []
    basicAuth := some (c.username, c.password)
    userAgent := userAgent, body := some json }

/-- `AuthenticatedClient::post`: a POST with credentials, header and a JSON
body. -/
def AuthenticatedClient.post (c : AuthenticatedClient) (url : String)
    (json : Json) : Request :=
  { method := .POST, url := url, query := []
    basicAuth := some (c.username, c.password)
    userAgent := userAgent, body := some json }

/-- Modelled from the spec: `AuthenticatedClient::post_with_query` is
called from src/settings.rs but its definition is not in the supplied
revision of src/client.rs; per the transport contract it is a POST with
the same credentials and header plus query parameters. -/
def AuthenticatedClient.post_with_query (c : AuthenticatedClient)
    (url : String) (json : Json) (query : List (String × String)) : Request :=
  { method := .POST, url := url, query := query
    basicAuth := some (c.username, c.password)
    userAgent := userAgent, body := some json }

/-- `DeviceClient::get`: delegation to the wrapped client. -/
def DeviceClient.get (d : DeviceClient) (url : String) : Request :=
  d.authenticated_client.get url

/-- `DeviceClient::get_with_query`: delegation to the wrapped client. -/
def DeviceClient.get_with_query (d : DeviceClient) (url : String)
    (query : List (String × String)) : Request :=
  d.authenticated_client.get_with_query url query

/-- `DeviceClient::put`: delegation to the wrapped client. -/
def DeviceClient.put (d : DeviceClient) (url : String) (json : Json) : Request :=
  d.authenticated_client.put url json

/-- `DeviceClient::post`: delegation to the wrapped client. -/
def DeviceClient.post (d : DeviceClient) (url : String) (json : Json) : Request :=
  d.authenticated_client.post url json

/-- Type of an episode action (src/episode.rs `EpisodeActionType`):
a tagged union keyed by the `action` field, lowercase variant names. -/
inductive EpisodeActionType : Type where
  | download
  | delete
  | play (position : Nat) (started : Option Nat) (total : Option Nat)
  | new
  | flattr
deriving DecidableEq, Repr

/-- Episode-related event (src/episode.rs `EpisodeAction`). The `device`
and `timestamp` fields are skipped on serialization when absent, and the
`action` field is flattened into the same JSON object. -/
structure EpisodeAction : Type where
  podcast : Url
  episode : Url
  device : Option String
  action : EpisodeActionType
  timestamp : Option NaiveDateTime
deriving DecidableEq, Repr

/-- The flattened wire fields of an `EpisodeActionType`: the `action` tag
plus, for `Play`, the `position` field and the optional `started` and
`total` fields (skipped when absent). -/
def EpisodeActionType.jsonFields : EpisodeActionType → List (String × Json)
  | .download => [("action", .str "download")]
  | .delete => [("action", .str "delete")]
  | .play position started total =>
    [("action", .str "play"), ("position", .num position)]
      ++ (match started with
          | some v => [("started", .num v)]
          | none => [])
      ++ (match total with
          | some v => [("total", .num v)]
          | none => [])
  | .new => [("action", .str "new")]
  | .flattr => [("action", .str "flattr")]

/-- serde serialization of an `EpisodeAction`: common fields in struct
order, `device` and `timestamp` omitted when `None`, and the action
variant flattened in place. -/
def EpisodeAction.toJson (a : EpisodeAction) : Json :=
  .obj ([("podcast", .str a.podcast.render), ("episode", .str a.episode.render)]
    ++ (match a.device with
        | some d => [("device", .str d)]
        | none => [])
    ++ a.action.jsonFields
    ++ (match a.timestamp with
        | some t => [("timestamp", .str t.iso)]
        | none => []))

/-- Decode an optional field: an absent key is `None`, a present key must
decode with `f`, anything else is a deserialization error. -/
def getOptField (j : Json) (key : String) (f : Json → Option α) :
    Option (Option α) :=
  match j.getField key with
  | none => some none
  | some v => (f v).map some

/-- serde deserialization of an `EpisodeAction` (tag dispatch on the
flattened `action` field, by-name field lookup). -/
def EpisodeAction.fromJson (j : Json) : Option EpisodeAction := do
  let pj ← j.getField "podcast"
  let ps ← asStr pj
  let podcast ← urlParse ps
  let ej ← j.getField "episode"
  let es ← asStr ej
  let episode ← urlParse es
  let device ← getOptField j "device" asStr
  let tagj ← j.getField "action"
  let tag ← asStr tagj
  let action ←
    match tag with
    | "download" => some EpisodeActionType.download
    | "delete" => some EpisodeActionType.delete
    | "new" => some EpisodeActionType.new
    | "flattr" => some EpisodeActionType.flattr
    | "play" => do
      let posj ← j.getField "position"
      let position ← asNat posj
      let started ← getOptField j "started" asNat
      let total ← getOptField j "total" asNat
      some (EpisodeActionType.play position started total)
    | _ => none
  let timestamp ← getOptField j "timestamp"
      (fun v => (asStr v).map NaiveDateTime.mk)
  some ⟨podcast, episode, device, action, timestamp⟩

/-- `EpisodeAction::new`, the private base constructor: the `device`
field is always set to `None`. -/
def EpisodeAction.new (podcast episode : Url) (timestamp : Option NaiveDateTime)
    (action : EpisodeActionType) : EpisodeAction :=
  ⟨podcast, episode, none, action, timestamp⟩

/-- `EpisodeAction::new_download`. -/
def EpisodeAction.new_download (podcast episode : Url)
    (timestamp : Option NaiveDateTime) : EpisodeAction :=
  EpisodeAction.new podcast episode timestamp .download

/-- `EpisodeAction::new_delete`. -/
def EpisodeAction.new_delete (podcast episode : Url)
    (timestamp : Option NaiveDateTime) : EpisodeAction :=
  EpisodeAction.new podcast episode timestamp .delete

/-- `EpisodeAction::new_new`. -/
def EpisodeAction.new_new (podcast episode : Url)
    (timestamp : Option NaiveDateTime) : EpisodeAction :=
  EpisodeAction.new podcast episode timestamp .new

/-- `EpisodeAction::new_play_stop`: a play event carrying only the stop
position; `started` and `total` are left absent. -/
def EpisodeAction.new_play_stop (podcast episode : Url)
    (timestamp : Option NaiveDateTime) (position : Nat) : EpisodeAction :=
  { podcast := podcast
    episode := episode
    device := none
    action := .play position none none
    timestamp := timestamp }

/-- `EpisodeAction::new_play`: a play event carrying position, start and
total length; `started` and `total` are both present. -/
def EpisodeAction.new_play (podcast episode : Url)
    (timestamp : Option NaiveDateTime) (position started total : Nat) :
    EpisodeAction :=
  { podcast := podcast
    episode := episode
    device := none
    action := .play position (some started) (some total)
    timestamp := timestamp }

/-- Type of a device (src/device.rs `DeviceType`). -/
inductive DeviceType : Type where
  | desktop
  | laptop
  | mobile
  | server
  | other
deriving DecidableEq, Repr

/-- A device record (src/device.rs `Device`). -/
structure Device : Type where
  id : String
  caption : String
  device_type : DeviceType
  subscriptions : Nat
deriving DecidableEq, Repr

/-- `PartialEq for Device`: equality solely by `id`. -/
def Device.beq (a b : Device) : Bool := a.id == b.id

/-- `Ord for Device`: ordering solely by `id`. -/
def Device.cmp (a b : Device) : Ordering := cmpString a.id b.id

/-- `Hash for Device`: only `id` is fed to the hasher, modelled by a
hasher function applied to the hashed data. -/
def Device.hashWith (h : String → Nat) (a : Device) : Nat := h a.id

/-- A subscription record (src/subscription.rs `Subscription`). -/
structure Subscription : Type where
  url : Url
  title : String
  description : String
  subscribers : Nat
  subscribers_last_week : Nat
  logo_url : Option Url
  scaled_logo_url : Option Url
  website : Option Url
  mygpo_link : Url
deriving DecidableEq, Repr

/-- `PartialEq for Subscription`: equality solely by `url`. -/
def Subscription.beq (a b : Subscription) : Bool := a.url == b.url

/-- `Ord for Subscription`: ordering solely by `url` (URLs compare by
their serialized form). -/
def Subscription.cmp (a b : Subscription) : Ordering :=
  cmpString a.url.render b.url.render

/-- `Hash for Subscription`: only `url` is fed to the hasher. -/
def Subscription.hashWith (h : String → Nat) (a : Subscription) : Nat :=
  h a.url.render

/-- A podcast suggestion (src/suggestion.rs `Suggestion`); its URL fields
are plain strings in this revision. -/
structure Suggestion : Type where
  website : String
  mygpo_link : String
  description : String
  subscribers : Nat
  title : String
  url : String
  subscribers_last_week : Nat
  logo_url : Option String
deriving DecidableEq, Repr

/-- `PartialEq for Suggestion`: equality solely by `url`. -/
def Suggestion.beq (a b : Suggestion) : Bool := a.url == b.url

/-- `Ord for Suggestion`: ordering solely by `url`. -/
def Suggestion.cmp (a b : Suggestion) : Ordering := cmpString a.url b.url

/-- `Hash for Suggestion`: only `url` is fed to the hasher. -/
def Suggestion.hashWith (h : String → Nat) (a : Suggestion) : Nat := h a.url

/-- A podcast episode record (src/directory.rs `Episode`). -/
structure Episode : Type where
  title : String
  url : Url
  podcast_title : String
  podcast_url : Url
  description : String
  website : Option Url
  mygpo_link : Url
  released : NaiveDateTime
deriving DecidableEq, Repr

/-- `PartialEq for Episode`: equality solely by `url`. -/
def Episode.beq (a b : Episode) : Bool := a.url == b.url

/-- `Ord for Episode`: ordering solely by `url`. -/
def Episode.cmp (a b : Episode) : Ordering :=
  cmpString a.url.render b.url.render

/-- `Hash for Episode`: only `url` is fed to the hasher. -/
def Episode.hashWith (h : String → Nat) (a : Episode) : Nat := h a.url.render

/-- A podcast tag (src/directory.rs `Tag`). -/
structure Tag : Type where
  title : String
  tag : String
  usage : Nat
deriving DecidableEq, Repr

/-- `PartialEq for Tag`: equality solely by `tag`. -/
def Tag.beq (a b : Tag) : Bool := a.tag == b.tag

/-- `Ord for Tag`: ordering solely by `tag`. -/
def Tag.cmp (a b : Tag) : Ordering := cmpString a.tag b.tag

/-- `Hash for Tag`: only `tag` is fed to the hasher. -/
def Tag.hashWith (h : String → Nat) (a : Tag) : Nat := h a.tag

/-- `RetrieveTopTags for PublicClient` (src/directory.rs). -/
def PublicClient.retrieve_top_tags (c : PublicClient) (count : Nat) : Request :=
  c.get ("https://gpodder.net/api/2/tags/" ++ natRepr count ++ ".json")

/-- `RetrievePodcastsForTag for PublicClient`: the tag is percent-encoded
before path insertion. -/
def PublicClient.retrieve_podcasts_for_tag (c : PublicClient) (tag : String)
    (count : Nat) : Request :=
  c.get ("https://gpodder.net/api/2/tag/" ++ byteSerialize tag ++ "/"
    ++ natRepr count ++ ".json")

/-- `RetrievePodcastData for PublicClient`. -/
def PublicClient.retrieve_podcast_data (c : PublicClient) (url : Url) : Request :=
  c.get_with_query "https://gpodder.net/api/2/data/podcast.json"
    [("url", url.render)]

/-- `RetrieveEpisodeData for PublicClient`. -/
def PublicClient.retrieve_episode_data (c : PublicClient) (url podcast : Url) :
    Request :=
  c.get_with_query "https://gpodder.net/api/2/data/episode.json"
    [("url", url.render), ("podcast", podcast.render)]

/-- `PodcastToplist for PublicClient`: the `scale_logo` query parameter is
sent only when requested. -/
def PublicClient.podcast_toplist (c : PublicClient) (number : Nat)
    (scale_logo : Option Nat) : Request :=
  let url := "https://gpodder.net/toplist/" ++ natRepr number ++ ".json"
  match scale_logo with
  | some size => c.get_with_query url [("scale_logo", natRepr size)]
  | none => c.get url

/-- `PodcastSearch for PublicClient`: the query always carries `q`, and
`scale_logo` exactly when its rendering is non-empty. -/
def PublicClient.podcast_search (c : PublicClient) (q : String)
    (scale_logo : Option Nat) : Request :=
  let base : List (String × String) := [("q", q)]
  let scaleLogoString :=
    match scale_logo with
    | some size => natRepr size
    | none => ""
  let query :=
    if scaleLogoString = "" then base
    else base ++ [("scale_logo", scaleLogoString)]
  c.get_with_query "https://gpodder.net/search.json" query

/-- `RetrieveTopTags for AuthenticatedClient`: delegation to the embedded
public client. -/
def AuthenticatedClient.retrieve_top_tags (c : AuthenticatedClient)
    (count : Nat) : Request :=
  c.public_client.retrieve_top_tags count

/-- `RetrievePodcastsForTag for AuthenticatedClient`: delegation. -/
def AuthenticatedClient.retrieve_podcasts_for_tag (c : AuthenticatedClient)
    (tag : String) (count : Nat) : Request :=
  c.public_client.retrieve_podcasts_for_tag tag count

/-- `RetrievePodcastData for AuthenticatedClient`: delegation. -/
def AuthenticatedClient.retrieve_podcast_data (c : AuthenticatedClient)
    (url : Url) : Request :=
  c.public_client.retrieve_podcast_data url

/-- `RetrieveEpisodeData for AuthenticatedClient`: delegation. -/
def AuthenticatedClient.retrieve_episode_data (c : AuthenticatedClient)
    (url podcast : Url) : Request :=
  c.public_client.retrieve_episode_data url podcast

/-- `PodcastToplist for AuthenticatedClient`: delegation. -/
def AuthenticatedClient.podcast_toplist (c : AuthenticatedClient)
    (number : Nat) (scale_logo : Option Nat) : Request :=
  c.public_client.podcast_toplist number scale_logo

/-- `PodcastSearch for AuthenticatedClient`: delegation. -/
def AuthenticatedClient.podcast_search (c : AuthenticatedClient) (q : String)
    (scale_logo : Option Nat) : Request :=
  c.public_client.podcast_search q scale_logo

/-- `ListDevices for AuthenticatedClient` (src/device.rs). -/
def AuthenticatedClient.list_devices (c : AuthenticatedClient) : Request :=
  c.get ("https://gpodder.net/api/2/devices/" ++ c.username ++ ".json")

/-- `GetAllSubscriptions for AuthenticatedClient` (src/subscription.rs). -/
def AuthenticatedClient.get_all_subscriptions (c : AuthenticatedClient) :
    Request :=
  c.get ("https://gpodder.net/subscriptions/" ++ c.username ++ ".json")

/-- `UploadEpisodeActions for AuthenticatedClient` (src/episode.rs): a POST
of the serialized action list. -/
def AuthenticatedClient.upload_episode_actions (c : AuthenticatedClient)
    (actions : List EpisodeAction) : Request :=
  c.post ("https://gpodder.net/api/2/episodes/" ++ c.username ++ ".json")
    (Json.arr (actions.map EpisodeAction.toJson))

/-- `GetEpisodeActions for AuthenticatedClient` (src/episode.rs): the query
always carries `aggregated`; `since` and `podcast` are pushed exactly when
their rendered strings are non-empty. -/
def AuthenticatedClient.get_episode_actions (c : AuthenticatedClient)
    (podcast : Option Url) (since : Option Nat) (aggregated : Bool) : Request :=
  let q1 : List (String × String) := [("aggregated", boolString aggregated)]
  let sinceString :=
    match since with
    | some s => natRepr s
    | none => ""
  let q2 := if sinceString = "" then q1 else q1 ++ [("since", sinceString)]
  let podcastString :=
    match podcast with
    | some p => p.render
    | none => ""
  let q3 :=
    if podcastString = "" then q2 else q2 ++ [("podcast", podcastString)]
  c.get_with_query
    ("https://gpodder.net/api/2/episodes/" ++ c.username ++ ".json") q3

/-- Wire body of `SaveSettingsRequest` (src/settings.rs). -/
def saveSettingsRequestJson (set : List (String × String))
    (remove : List String) : Json :=
  Json.obj
    [("set", Json.obj (set.map (fun kv => (kv.1, Json.str kv.2)))),
     ("remove", Json.arr (remove.map Json.str))]

/-- `SaveAccountSettings for AuthenticatedClient` (src/settings.rs). -/
def AuthenticatedClient.save_account_settings (c : AuthenticatedClient)
    (set : List (String × String)) (remove : List String) : Request :=
  c.post ("https://gpodder.net/api/2/settings/" ++ c.username ++ "/account.json")
    (saveSettingsRequestJson set remove)

/-- `SavePodcastSettings for AuthenticatedClient` (src/settings.rs). -/
def AuthenticatedClient.save_podcast_settings (c : AuthenticatedClient)
    (set : List (String × String)) (remove : List String) (podcast : Url) :
    Request :=
  c.post_with_query
    ("https://gpodder.net/api/2/settings/" ++ c.username ++ "/podcast.json")
    (saveSettingsRequestJson set remove) [("podcast", podcast.render)]

/-- `SaveEpisodeSettings for AuthenticatedClient` (src/settings.rs). -/
def AuthenticatedClient.save_episode_settings (c : AuthenticatedClient)
    (set : List (String × String)) (remove : List String)
    (podcast episode : Url) : Request :=
  c.post_with_query
    ("https://gpodder.net/api/2/settings/" ++ c.username ++ "/episode.json")
    (saveSettingsRequestJson set remove)
    [("podcast", podcast.render), ("episode", episode.render)]

/-- `GetAccountSettings for AuthenticatedClient` (src/settings.rs). -/
def AuthenticatedClient.get_account_settings (c : AuthenticatedClient) :
    Request :=
  c.get ("https://gpodder.net/api/2/settings/" ++ c.username ++ "/account.json")

/-- `GetPodcastSettings for AuthenticatedClient` (src/settings.rs). -/
def AuthenticatedClient.get_podcast_settings (c : AuthenticatedClient)
    (podcast : Url) : Request :=
  c.get_with_query
    ("https://gpodder.net/api/2/settings/" ++ c.username ++ "/podcast.json")
    [("podcast", podcast.render)]

/-- `GetFavoriteEpisodes for AuthenticatedClient` (src/favorite.rs). -/
def AuthenticatedClient.get_favorite_episodes (c : AuthenticatedClient) :
    Request :=
  c.get ("https://gpodder.net/api/2/favorites/" ++ c.username ++ ".json")

/-- `Suggestions for AuthenticatedClient` (src/suggestion.rs). -/
def AuthenticatedClient.retrieve_suggested_podcasts (c : AuthenticatedClient)
    (max_results : Nat) : Request :=
  c.get ("https://gpodder.net/suggestions/" ++ natRepr max_results ++ ".json")

/-- `RetrieveTopTags for DeviceClient`: delegation. -/
def DeviceClient.retrieve_top_tags (d : DeviceClient) (count : Nat) : Request :=
  d.authenticated_client.retrieve_top_tags count

/-- `RetrievePodcastsForTag for DeviceClient`: delegation. -/
def DeviceClient.retrieve_podcasts_for_tag (d : DeviceClient) (tag : String)
    (count : Nat) : Request :=
  d.authenticated_client.retrieve_podcasts_for_tag tag count

/-- `RetrievePodcastData for DeviceClient`: delegation. -/
def DeviceClient.retrieve_podcast_data (d : DeviceClient) (url : Url) : Request :=
  d.authenticated_client.retrieve_podcast_data url

/-- `RetrieveEpisodeData for DeviceClient`: delegation. -/
def DeviceClient.retrieve_episode_data (d : DeviceClient) (url podcast : Url) :
    Request :=
  d.authenticated_client.retrieve_episode_data url podcast

/-- `PodcastToplist for DeviceClient`: delegation. -/
def DeviceClient.podcast_toplist (d : DeviceClient) (number : Nat)
    (scale_logo : Option Nat) : Request :=
  d.authenticated_client.podcast_toplist number scale_logo

/-- `PodcastSearch for DeviceClient`: delegation. -/
def DeviceClient.podcast_search (d : DeviceClient) (q : String)
    (scale_logo : Option Nat) : Request :=
  d.authenticated_client.podcast_search q scale_logo

/-- `ListDevices for DeviceClient`: delegation via `AsRef`. -/
def DeviceClient.list_devices (d : DeviceClient) : Request :=
  d.authenticated_client.list_devices

/-- `GetAllSubscriptions for DeviceClient`: delegation via `AsRef`. -/
def DeviceClient.get_all_subscriptions (d : DeviceClient) : Request :=
  d.authenticated_client.get_all_subscriptions

/-- `SaveAccountSettings for DeviceClient`: delegation. -/
def DeviceClient.save_account_settings (d : DeviceClient)
    (set : List (String × String)) (remove : List String) : Request :=
  d.authenticated_client.save_account_settings set remove

/-- `SavePodcastSettings for DeviceClient`: delegation. -/
def DeviceClient.save_podcast_settings (d : DeviceClient)
    (set : List (String × String)) (remove : List String) (podcast : Url) :
    Request :=
  d.authenticated_client.save_podcast_settings set remove podcast

/-- `SaveEpisodeSettings for DeviceClient`: delegation. -/
def DeviceClient.save_episode_settings (d : DeviceClient)
    (set : List (String × String)) (remove : List String)
    (podcast episode : Url) : Request :=
  d.authenticated_client.save_episode_settings set remove podcast episode

/-- `GetAccountSettings for DeviceClient`: delegation. -/
def DeviceClient.get_account_settings (d : DeviceClient) : Request :=
  d.authenticated_client.get_account_settings

/-- `GetPodcastSettings for DeviceClient`: delegation. -/
def DeviceClient.get_podcast_settings (d : DeviceClient) (podcast : Url) :
    Request :=
  d.authenticated_client.get_podcast_settings podcast

/-- `GetFavoriteEpisodes for DeviceClient`: delegation. -/
def DeviceClient.get_favorite_episodes (d : DeviceClient) : Request :=
  d.authenticated_client.get_favorite_episodes

/-- `Suggestions for DeviceClient`: delegation via `AsRef`. -/
def DeviceClient.retrieve_suggested_podcasts (d : DeviceClient)
    (max_results : Nat) : Request :=
  d.authenticated_client.retrieve_suggested_podcasts max_results

/-- Wire body of `UploadSubscriptionChangesRequest` (src/subscription.rs). -/
def uploadSubscriptionChangesJson (add remove : List String) : Json :=
  Json.obj
    [("add", Json.arr (add.map Json.str)),
     ("remove", Json.arr (remove.map Json.str))]

/-- `SubscriptionChanges::upload_subscription_changes for DeviceClient`
(src/subscription.rs): POST of the add/remove delta to the device-scoped
endpoint. -/
def DeviceClient.upload_subscription_changes (d : DeviceClient)
    (add remove : List String) : Request :=
  d.post ("https://gpodder.net/api/2/subscriptions/"
      ++ d.authenticated_client.username ++ "/" ++ d.device_id ++ ".json")
    (uploadSubscriptionChangesJson add remove)

/-- `SubscriptionChanges::get_subscription_changes for DeviceClient`
(src/subscription.rs). -/
def DeviceClient.get_subscription_changes (d : DeviceClient)
    (timestamp : Nat) : Request :=
  d.get_with_query ("https://gpodder.net/api/2/subscriptions/"
      ++ d.authenticated_client.username ++ "/" ++ d.device_id ++ ".json")
    [("since", natRepr timestamp)]

/-- The operations a caller can invoke on an `AuthenticatedClient`, each
constructor carrying the operation arguments. -/
inductive AuthOp : Type where
  | listDevices
  | retrieveTopTags (count : Nat)
  | retrievePodcastsForTag (tag : String) (count : Nat)
  | retrievePodcastData (url : Url)
  | retrieveEpisodeData (url : Url) (podcast : Url)
  | podcastToplist (number : Nat) (scaleLogo : Option Nat)
  | podcastSearch (q : String) (scaleLogo : Option Nat)
  | getAllSubscriptions
  | uploadEpisodeActions (actions : List EpisodeAction)
  | getEpisodeActions (podcast : Option Url) (since : Option Nat)
      (aggregated : Bool)
  | saveAccountSettings (set : List (String × String)) (remove : List String)
  | savePodcastSettings (set : List (String × String)) (remove : List String)
      (podcast : Url)
  | saveEpisodeSettings (set : List (String × String)) (remove : List String)
      (podcast : Url) (episode : Url)
  | getAccountSettings
  | getPodcastSettings (podcast : Url)
  | getFavoriteEpisodes
  | retrieveSuggestedPodcasts (maxResults : Nat)

/-- The six directory operations: on `AuthenticatedClient` they delegate
to the embedded `PublicClient`. -/
def AuthOp.isDirectoryOp : AuthOp → Bool
  | .retrieveTopTags _ => true
  | .retrievePodcastsForTag _ _ => true
  | .retrievePodcastData _ => true
  | .retrieveEpisodeData _ _ => true
  | .podcastToplist _ _ => true
  | .podcastSearch _ _ => true
  | _ => false

/-- Whether the operation trait is implemented for `DeviceClient` in the
source (the two episode-action traits are implemented only for
`AuthenticatedClient`). -/
def AuthOp.onDevice : AuthOp → Bool
  | .uploadEpisodeActions _ => false
  | .getEpisodeActions _ _ _ => false
  | _ => true

/-- The outgoing request of each operation invoked on an
`AuthenticatedClient`. -/
def authRequest (c : AuthenticatedClient) : AuthOp → Request
  | .listDevices => c.list_devices
  | .retrieveTopTags count => c.retrieve_top_tags count
  | .retrievePodcastsForTag tag count => c.retrieve_podcasts_for_tag tag count
  | .retrievePodcastData url => c.retrieve_podcast_data url
  | .retrieveEpisodeData url podcast => c.retrieve_episode_data url podcast
  | .podcastToplist number scaleLogo => c.podcast_toplist number scaleLogo
  | .podcastSearch q scaleLogo => c.podcast_search q scaleLogo
  | .getAllSubscriptions => c.get_all_subscriptions
  | .uploadEpisodeActions actions => c.upload_episode_actions actions
  | .getEpisodeActions podcast since aggregated =>
    c.get_episode_actions podcast since aggregated
  | .saveAccountSettings set remove => c.save_account_settings set remove
  | .savePodcastSettings set remove podcast =>
    c.save_podcast_settings set remove podcast
  | .saveEpisodeSettings set remove podcast episode =>
    c.save_episode_settings set remove podcast episode
  | .getAccountSettings => c.get_account_settings
  | .getPodcastSettings podcast => c.get_podcast_settings podcast
  | .getFavoriteEpisodes => c.get_favorite_episodes
  | .retrieveSuggestedPodcasts maxResults =>
    c.retrieve_suggested_podcasts maxResults

/-- The outgoing request of each `AuthenticatedClient` operation invoked
on a `DeviceClient`; `none` when the source implements no such operation
for `DeviceClient`. -/
def deviceRequest (d : DeviceClient) : AuthOp → Option Request
  | .listDevices => some d.list_devices
  | .retrieveTopTags count => some (d.retrieve_top_tags count)
  | .retrievePodcastsForTag tag count =>
    some (d.retrieve_podcasts_for_tag tag count)
  | .retrievePodcastData url => some (d.retrieve_podcast_data url)
  | .retrieveEpisodeData url podcast =>
    some (d.retrieve_episode_data url podcast)
  | .podcastToplist number scaleLogo =>
    some (d.podcast_toplist number scaleLogo)
  | .podcastSearch q scaleLogo => some (d.podcast_search q scaleLogo)
  | .getAllSubscriptions => some d.get_all_subscriptions
  | .uploadEpisodeActions _ => none
  | .getEpisodeActions _ _ _ => none
  | .saveAccountSettings set remove => some (d.save_account_settings set remove)
  | .savePodcastSettings set remove podcast =>
    some (d.save_podcast_settings set remove podcast)
  | .saveEpisodeSettings set remove podcast episode =>
    some (d.save_episode_settings set remove podcast episode)
  | .getAccountSettings => some d.get_account_settings
  | .getPodcastSettings podcast => some (d.get_podcast_settings podcast)
  | .getFavoriteEpisodes => some d.get_favorite_episodes
  | .retrieveSuggestedPodcasts maxResults =>
    some (d.retrieve_suggested_podcasts maxResults)

/-- First value with the given key in a query-parameter list. -/
def lookupValue : List (String × String) → String → Option String
  | [], _ => none
  | (k, v) :: rest, key => if k = key then some v else lookupValue rest key

/-- Decode a `url::Url` from JSON: a string that must parse as a URL. -/
def decodeUrlJson : Json → Option Url
  | .str s => urlParse s
  | _ => none

/-- Decode a `(Url, Url)` tuple from its wire form, a two-element array. -/
def decodeUrlPair : Json → Option (Url × Url)
  | .arr [a, b] =>
    match decodeUrlJson a, decodeUrlJson b with
    | some x, some y => some (x, y)
    | _, _ => none
  | _ => none

/-- Decode a `(String, String)` tuple from its wire form. -/
def decodeStrPair : Json → Option (String × String)
  | .arr [a, b] =>
    match asStr a, asStr b with
    | some x, some y => some (x, y)
    | _, _ => none
  | _ => none

/-- Response to `upload_episode_actions` (src/episode.rs
`UploadEpisodeActionsResponse`): the rewritten-URL list is typed
`Vec<(Url, Url)>`, so every entry must parse as a URL. -/
structure UploadEpisodeActionsResponse : Type where
  timestamp : Nat
  update_urls : List (Url × Url)
deriving DecidableEq, Repr

/-- serde deserialization of `UploadEpisodeActionsResponse`. -/
def UploadEpisodeActionsResponse.fromJson (j : Json) :
    Option UploadEpisodeActionsResponse :=
  match j.getField "timestamp", j.getField "update_urls" with
  | some (.num t), some (.arr xs) =>
    (xs.mapM decodeUrlPair).map (fun l => ⟨t, l⟩)
  | _, _ => none

/-- Response to `upload_subscription_changes` (src/subscription.rs
`UploadSubscriptionChangesResponse`): here the rewritten-URL list is typed
`Vec<(String, String)>`, so the empty-string sentinel is representable. -/
structure UploadSubscriptionChangesResponse : Type where
  timestamp : Nat
  update_urls : List (String × String)
deriving DecidableEq, Repr

/-- serde deserialization of `UploadSubscriptionChangesResponse`. -/
def UploadSubscriptionChangesResponse.fromJson (j : Json) :
    Option UploadSubscriptionChangesResponse :=
  match j.getField "timestamp", j.getField "update_urls" with
  | some (.num t), some (.arr xs) =>
    (xs.mapM decodeStrPair).map (fun l => ⟨t, l⟩)
  | _, _ => none

/-- A server response to `upload_episode_actions` in which the canonical
component of an `update_urls` pair is the empty-string sentinel the
server uses for rewritten/disallowed URLs. -/
def emptyCanonicalUploadResponse : Json :=
  Json.obj
    [("timestamp", Json.num 0),
     ("update_urls",
      Json.arr [Json.arr [Json.str "http://example.com/feed", Json.str ""]])]

/-- Failures of the underlying `reqwest` transport: connection errors,
non-2xx status passed through, and JSON-decode failures of the body. -/
inductive ReqwestError : Type where
  | connection (msg : String)
  | status (code : Nat)
  | decode (msg : String)
deriving DecidableEq, Repr

/-- The error type of every operation (src/error.rs `Error`): a single
variant wrapping the underlying `reqwest` error. -/
inductive Error : Type where
  | networkError (e : ReqwestError)
deriving DecidableEq, Repr

/-- `From<reqwest::Error> for Error` (src/error.rs). -/
def errorFromReqwest (e : ReqwestError) : Error := Error.networkError e

/-- The result pipeline every operation follows
(`Ok(self.method(..)?.json()?)`): one transport interaction whose failure
is converted by `From`, then one decode whose failure is a `reqwest`
decode error, also converted by `From`. No retry occurs: the single
transport result fully determines the outcome. -/
def runOp (resp : Except ReqwestError Json) (decode : Json → Option α) :
    Except Error α :=
  match resp with
  | .error e => .error (errorFromReqwest e)
  | .ok j =>
    match decode j with
    | some v => .ok v
    | none =>
      .error (errorFromReqwest
        (.decode "error decoding response body"))

/-- Modelled from the spec: the server-side effect of one
`upload_subscription_changes` call on the subscription set of the device
(the server itself is outside this repository; src/subscription.rs only
sends the delta). Per the subscription synchronization contract the
uploaded `add` URLs join the set and the `remove` URLs leave it. -/
def applySubscriptionDelta (s : Finset String) (add remove : List String) :
    Finset String :=
  (s ∪ add.toFinset) \ remove.toFinset

/-- Concrete authenticated client used in counterexamples and witnesses. -/
def sampleAuthClient : AuthenticatedClient := AuthenticatedClient.new "user" "pass"

/-- Concrete device client used in counterexamples and witnesses. -/
def sampleDeviceClient : DeviceClient := DeviceClient.new "user" "pass" "dev1"

/-- Concrete play-stop action used as the round-trip witness. -/
def samplePlayStopAction : EpisodeAction :=
  EpisodeAction.new_play_stop ⟨"http", "//example.com/feed.rss"⟩
    ⟨"http", "//example.com/a.mp3"⟩ none 120

/-- Seed devices of the equality-by-key test (src/device.rs tests): same
id, different caption, type and subscription count. -/
def seedDevice1 : Device := ⟨"abcdef", "gPodder on my Lappy", .laptop, 27⟩

/-- Second seed device with the same id. -/
def seedDevice2 : Device := ⟨"abcdef", "unnamed", .other, 1⟩

/-- Seed subscriptions sharing a url (src/subscription.rs tests). -/
def seedSubscription1 : Subscription :=
  ⟨⟨"http", "//goinglinux.com/mp3podcast.xml"⟩, "Linux Geekdom",
    "Linux Geekdom", 0, 0, none, none,
    some ⟨"http", "//www.linuxgeekdom.com"⟩,
    ⟨"http", "//gpodder.net/podcast/64439"⟩⟩

/-- Second seed subscription with the same url. -/
def seedSubscription2 : Subscription :=
  ⟨⟨"http", "//goinglinux.com/mp3podcast.xml"⟩, "Going Linux",
    "Going Linux", 571, 571,
    some ⟨"http", "//goinglinux.com/images/GoingLinux80.png"⟩,
    some ⟨"http", "//goinglinux.com/images/GoingLinux80.png"⟩,
    some ⟨"http", "//goinglinux.com"⟩,
    ⟨"http", "//gpodder.net/podcast/11171"⟩⟩

/-- Seed suggestions sharing a url. -/
def seedSuggestion1 : Suggestion :=
  ⟨"http://a.example", "http://gpodder.net/1", "first", 3, "First",
    "http://feed.example/rss", 2, none⟩

/-- Second seed suggestion with the same url. -/
def seedSuggestion2 : Suggestion :=
  ⟨"http://b.example", "http://gpodder.net/2", "second", 9, "Second",
    "http://feed.example/rss", 8, some "http://b.example/logo.png"⟩

/-- Seed episodes sharing a url (src/directory.rs tests). -/
def seedEpisode1 : Episode :=
  ⟨"TWiT 245: No Hitler For You", ⟨"http", "//leo.am/twit0245.mp3"⟩,
    "this WEEK in TECH", ⟨"http", "//leo.am/podcasts/twit"⟩, "first",
    none, ⟨"http", "//gpodder.net/episode/1046492"⟩,
    ⟨"2010-12-25T00:30:00"⟩⟩

/-- Second seed episode with the same url. -/
def seedEpisode2 : Episode :=
  ⟨"Climate Change", ⟨"http", "//leo.am/twit0245.mp3"⟩,
    "On the Media", ⟨"http", "//feeds.wnyc.org/onthemedia"⟩, "second",
    some ⟨"http", "//www.wnycstudios.org/story"⟩,
    ⟨"http", "//gpodder.net/podcast/on-the-media-1"⟩,
    ⟨"2020-01-15T17:00:00"⟩⟩

/-- Seed tags sharing a tag key (src/directory.rs tests). -/
def seedTag1 : Tag := ⟨"TAG", "tag", 0⟩

/-- Second seed tag with the same tag key. -/
def seedTag2 : Tag := ⟨"GAT", "tag", 100⟩

theorem splitColon_append (a b : List Char) (h : ':' ∉ a) :
    splitColon (a ++ ':' :: b) = some (a, b) := by
  induction a with
  | nil => simp [splitColon]
  | cons c cs ih =>
    have hc : ¬ c = ':' := by
      intro hc
      exact h (by simp [hc])
    have hcs : ':' ∉ cs := by
      intro hm
      exact h (List.mem_cons_of_mem _ hm)
    simp [splitColon, hc, ih hcs]

theorem data_render (u : Url) :
    (Url.render u).data = u.scheme.data ++ ':' :: u.rest.data := by
  simp [Url.render, String.data_append]

/-- Parsing the serialized form of a URL whose scheme holds no colon gives
the URL back (`url::Url` guarantees schemes are colon-free). -/
theorem urlParse_render (u : Url) (h : ':' ∉ u.scheme.data) :
    urlParse (Url.render u) = some u := by
  simp [urlParse, data_render, splitColon_append _ _ h]

/-- The serialized form of a URL is never the empty string (it holds at
least the scheme separator). -/
theorem render_ne_empty (u : Url) : Url.render u ≠ "" := by
  intro hcontra
  have : (Url.render u).data = ([] : List Char) := by rw [hcontra]
  rw [data_render] at this
  simp at this

theorem natToDigits_ne_nil (n : Nat) : natToDigits n ≠ [] := by
  unfold natToDigits
  split
  · simp
  · simp

/-- The decimal rendering of a natural number is never empty. -/
theorem natRepr_ne_empty (n : Nat) : natRepr n ≠ "" := by
  intro h
  have hd := congrArg String.data h
  simp only [natRepr] at hd
  exact natToDigits_ne_nil n hd

theorem cmpChars_self (l : List Char) : cmpChars l l = Ordering.eq := by
  induction l with
  | nil => rfl
  | cons a as ih =>
    unfold cmpChars
    rw [if_neg (lt_irrefl a), if_neg (lt_irrefl a)]
    exact ih

theorem cmpString_self (s : String) : cmpString s s = Ordering.eq :=
  cmpChars_self s.data

/-- C1 counterexample: `retrieve_top_tags` invoked on an
`AuthenticatedClient` with username `user` and password `pass` sends a
request without Basic-auth credentials, because the directory operations
delegate to the embedded `PublicClient`. -/
theorem claim_C1_counterexample :
    (authRequest sampleAuthClient (AuthOp.retrieveTopTags 10)).basicAuth
      ≠ some ("user", "pass") := by
  intro h
  exact Option.noConfusion h

/-- C1 (amended): an operation invoked on an `AuthenticatedClient`
carries Basic-auth built from the username and password exactly when it
is not one of the six directory operations; those delegate to the
embedded `PublicClient` and carry no credentials. -/
theorem claim_C1_basic_auth (c : AuthenticatedClient) (op : AuthOp) :
    (authRequest c op).basicAuth =
      if op.isDirectoryOp then none else some (c.username, c.password) := by
  cases op <;> try rfl
  case podcastToplist number scaleLogo => cases scaleLogo <;> rfl

/-- C2 counterexample: `upload_episode_actions` is defined on
`AuthenticatedClient`, but a `DeviceClient` built from the same username
and password produces no request for it at all - the trait is not
implemented for `DeviceClient` - so it does not produce the same request. -/
theorem claim_C2_counterexample :
    deviceRequest sampleDeviceClient (AuthOp.uploadEpisodeActions [])
      ≠ some (authRequest sampleDeviceClient.authenticated_client
          (AuthOp.uploadEpisodeActions [])) := by
  intro h
  exact Option.noConfusion h

/-- C2 (amended): every `AuthenticatedClient` operation that is also
implemented for `DeviceClient` (all except `upload_episode_actions` and
`get_episode_actions`) produces, when invoked on the `DeviceClient`,
exactly the request of the wrapped `AuthenticatedClient`: same method,
URL, query, headers and body. -/
theorem claim_C2_device_delegation (d : DeviceClient) (op : AuthOp)
    (h : op.onDevice = true) :
    deviceRequest d op = some (authRequest d.authenticated_client op) := by
  cases op <;> first
    | rfl
    | exact absurd h (by simp [AuthOp.onDevice])

/-- C2 witness: a concrete delegated operation, `list_devices`, produces
the identical request through the device client. -/
theorem claim_C2_witness :
    deviceRequest sampleDeviceClient AuthOp.listDevices
      = some (authRequest sampleDeviceClient.authenticated_client
          AuthOp.listDevices) :=
  claim_C2_device_delegation sampleDeviceClient AuthOp.listDevices rfl

/-- C3: `new_play_stop` builds a `Play` action with `started` and `total`
both absent, and `new_play` builds one with both present. -/
theorem claim_C3_play_constructors (p e : Url) (ts : Option NaiveDateTime)
    (position started total : Nat) :
    (EpisodeAction.new_play_stop p e ts position).action
        = EpisodeActionType.play position none none ∧
      (EpisodeAction.new_play p e ts position started total).action
        = EpisodeActionType.play position (some started) (some total) :=
  ⟨rfl, rfl⟩

/-- C4: serializing an `EpisodeAction` to JSON and deserializing the
result yields the original value, and `None`-valued `device`, `timestamp`,
`started` and `total` fields are omitted from the serialized object
entirely rather than emitted as null. The hypotheses state that the two
URL schemes hold no colon, which `url::Url` guarantees for every parsed
URL. -/
theorem claim_C4_json_roundtrip (a : EpisodeAction)
    (hp : ':' ∉ a.podcast.scheme.data) (he : ':' ∉ a.episode.scheme.data) :
    EpisodeAction.fromJson (EpisodeAction.toJson a) = some a ∧
      (a.device = none →
        (EpisodeAction.toJson a).hasField "device" = false) ∧
      (a.timestamp = none →
        (EpisodeAction.toJson a).hasField "timestamp" = false) ∧
      (∀ position, a.action = EpisodeActionType.play position none none →
        (EpisodeAction.toJson a).hasField "started" = false ∧
          (EpisodeAction.toJson a).hasField "total" = false) := by
  obtain ⟨p, e, dev, act, ts⟩ := a
  simp only at hp he
  refine ⟨?_, ?_, ?_, ?_⟩
  · cases dev <;> cases ts <;> cases act <;>
      simp [EpisodeAction.toJson, EpisodeAction.fromJson,
        EpisodeActionType.jsonFields, Json.getField, findField, getOptField,
        asStr, asNat, urlParse_render p hp, urlParse_render e he]
    all_goals rename_i position started total
    all_goals cases started <;> cases total <;>
      simp [EpisodeAction.toJson, EpisodeAction.fromJson,
        EpisodeActionType.jsonFields, Json.getField, findField, getOptField,
        asStr, asNat, urlParse_render p hp, urlParse_render e he]
  · intro hdev
    simp only at hdev
    subst hdev
    cases ts <;> cases act <;>
      simp [EpisodeAction.toJson, Json.hasField, Json.getField, findField,
        EpisodeActionType.jsonFields]
    all_goals rename_i position started total
    all_goals cases started <;> cases total <;>
      simp [EpisodeAction.toJson, Json.hasField, Json.getField, findField,
        EpisodeActionType.jsonFields]
  · intro hts
    simp only at hts
    subst hts
    cases dev <;> cases act <;>
      simp [EpisodeAction.toJson, Json.hasField, Json.getField, findField,
        EpisodeActionType.jsonFields]
    all_goals rename_i position started total
    all_goals cases started <;> cases total <;>
      simp [EpisodeAction.toJson, Json.hasField, Json.getField, findField,
        EpisodeActionType.jsonFields]
  · intro position hact
    simp only at hact
    subst hact
    cases dev <;> cases ts <;>
      simp [EpisodeAction.toJson, Json.hasField, Json.getField, findField,
        EpisodeActionType.jsonFields]

/-- C4 witness: the round trip and the key omissions hold at the concrete
play-stop action. -/
theorem claim_C4_witness :
    EpisodeAction.fromJson (EpisodeAction.toJson samplePlayStopAction)
        = some samplePlayStopAction ∧
      (EpisodeAction.toJson samplePlayStopAction).hasField "device" = false ∧
      (EpisodeAction.toJson samplePlayStopAction).hasField "timestamp" = false ∧
      (EpisodeAction.toJson samplePlayStopAction).hasField "started" = false ∧
      (EpisodeAction.toJson samplePlayStopAction).hasField "total" = false := by
  have h := claim_C4_json_roundtrip samplePlayStopAction (by decide) (by decide)
  exact ⟨h.1, h.2.1 rfl, h.2.2.1 rfl, (h.2.2.2 120 rfl).1, (h.2.2.2 120 rfl).2⟩

/-- C5: for `Device`, `Subscription`, `Suggestion`, `Episode` and `Tag`,
two values with equal keys (`id` for devices, `url` for subscriptions,
suggestions and episodes, `tag` for tags) are equal, compare as
`Ordering.eq`, and hash identically for every hasher, whatever the other
fields hold. -/
theorem claim_C5_equality_by_key :
    (∀ a b : Device, a.id = b.id →
      Device.beq a b = true ∧ Device.cmp a b = Ordering.eq ∧
        ∀ h : String → Nat, Device.hashWith h a = Device.hashWith h b) ∧
      (∀ a b : Subscription, a.url = b.url →
        Subscription.beq a b = true ∧ Subscription.cmp a b = Ordering.eq ∧
          ∀ h : String → Nat,
            Subscription.hashWith h a = Subscription.hashWith h b) ∧
      (∀ a b : Suggestion, a.url = b.url →
        Suggestion.beq a b = true ∧ Suggestion.cmp a b = Ordering.eq ∧
          ∀ h : String → Nat,
            Suggestion.hashWith h a = Suggestion.hashWith h b) ∧
      (∀ a b : Episode, a.url = b.url →
        Episode.beq a b = true ∧ Episode.cmp a b = Ordering.eq ∧
          ∀ h : String → Nat, Episode.hashWith h a = Episode.hashWith h b) ∧
      (∀ a b : Tag, a.tag = b.tag →
        Tag.beq a b = true ∧ Tag.cmp a b = Ordering.eq ∧
          ∀ h : String → Nat, Tag.hashWith h a = Tag.hashWith h b) := by
  refine ⟨?_, ?_, ?_, ?_, ?_⟩ <;>
    exact fun a b hk =>
      ⟨by simp_all [Device.beq, Subscription.beq, Suggestion.beq, Episode.beq,
          Tag.beq],
        by simp_all [Device.cmp, Subscription.cmp, Suggestion.cmp, Episode.cmp,
          Tag.cmp, cmpString_self],
        fun h => by
          simp_all [Device.hashWith, Subscription.hashWith,
            Suggestion.hashWith, Episode.hashWith, Tag.hashWith]⟩

/-- C5 witness: the seed values with equal keys but different other fields
are equal, compare equal and hash identically (hasher instantiated at
`String.length`). -/
theorem claim_C5_witness :
    (Device.beq seedDevice1 seedDevice2 = true ∧
        Device.cmp seedDevice1 seedDevice2 = Ordering.eq ∧
        Device.hashWith String.length seedDevice1
          = Device.hashWith String.length seedDevice2) ∧
      (Subscription.beq seedSubscription1 seedSubscription2 = true ∧
        Subscription.cmp seedSubscription1 seedSubscription2 = Ordering.eq ∧
        Subscription.hashWith String.length seedSubscription1
          = Subscription.hashWith String.length seedSubscription2) ∧
      (Suggestion.beq seedSuggestion1 seedSuggestion2 = true ∧
        Suggestion.cmp seedSuggestion1 seedSuggestion2 = Ordering.eq ∧
        Suggestion.hashWith String.length seedSuggestion1
          = Suggestion.hashWith String.length seedSuggestion2) ∧
      (Episode.beq seedEpisode1 seedEpisode2 = true ∧
        Episode.cmp seedEpisode1 seedEpisode2 = Ordering.eq ∧
        Episode.hashWith String.length seedEpisode1
          = Episode.hashWith String.length seedEpisode2) ∧
      (Tag.beq seedTag1 seedTag2 = true ∧
        Tag.cmp seedTag1 seedTag2 = Ordering.eq ∧
        Tag.hashWith String.length seedTag1
          = Tag.hashWith String.length seedTag2) := by
  obtain ⟨h1, h2, h3, h4, h5⟩ := claim_C5_equality_by_key
  exact
    ⟨⟨(h1 _ _ rfl).1, (h1 _ _ rfl).2.1, (h1 _ _ rfl).2.2 String.length⟩,
      ⟨(h2 _ _ rfl).1, (h2 _ _ rfl).2.1, (h2 _ _ rfl).2.2 String.length⟩,
      ⟨(h3 _ _ rfl).1, (h3 _ _ rfl).2.1, (h3 _ _ rfl).2.2 String.length⟩,
      ⟨(h4 _ _ rfl).1, (h4 _ _ rfl).2.1, (h4 _ _ rfl).2.2 String.length⟩,
      ⟨(h5 _ _ rfl).1, (h5 _ _ rfl).2.1, (h5 _ _ rfl).2.2 String.length⟩⟩

/-- C10: every public constructor of `EpisodeAction` leaves the `device`
field `None`; device attribution can only be set on the public field
afterwards. -/
theorem claim_C10_constructors_device_none (p e : Url)
    (ts : Option NaiveDateTime) (position started total : Nat) :
    (EpisodeAction.new_download p e ts).device = none ∧
      (EpisodeAction.new_delete p e ts).device = none ∧
      (EpisodeAction.new_new p e ts).device = none ∧
      (EpisodeAction.new_play p e ts position started total).device = none ∧
      (EpisodeAction.new_play_stop p e ts position).device = none :=
  ⟨rfl, rfl, rfl, rfl, rfl⟩

/-- C6: decoding an `upload_episode_actions` response whose `update_urls`
holds a pair with empty canonical component fails, because the field is
typed `Vec<(Url, Url)>` and the empty string is not a parseable URL -
contradicting the in-code documentation of `update_urls` (disallowed URLs
are rewritten to the empty string) and the spec. The subscriptions
counterpart, typed `Vec<(String, String)>`, accepts the very same
response. -/
theorem claim_C6_empty_sentinel_decode :
    urlParse "" = none ∧
      UploadEpisodeActionsResponse.fromJson emptyCanonicalUploadResponse
        = none ∧
      UploadSubscriptionChangesResponse.fromJson emptyCanonicalUploadResponse
        = some ⟨0, [("http://example.com/feed", "")]⟩ :=
  ⟨rfl, rfl, rfl⟩

/-- C7: the error type has the single variant `networkError` wrapping the
underlying transport error, and the pipeline every operation follows
(`Ok(self.method(..)?.json()?)`) either returns a decoded value or fails
with `networkError`; the single transport result fully determines the
outcome, so no retry occurs. -/
theorem claim_C7_single_error_kind :
    (∀ e : Error, ∃ r, e = Error.networkError r) ∧
      ∀ (α : Type) (resp : Except ReqwestError Json)
        (dec : Json → Option α),
        (∃ v, runOp resp dec = Except.ok v) ∨
          ∃ r, runOp resp dec = Except.error (Error.networkError r) := by
  constructor
  · intro e
    cases e with
    | networkError r => exact ⟨r, rfl⟩
  · intro α resp dec
    cases resp with
    | error e => exact Or.inr ⟨e, rfl⟩
    | ok j =>
      cases hd : dec j with
      | some v => exact Or.inl ⟨v, by simp [runOp, hd]⟩
      | none =>
        exact Or.inr ⟨ReqwestError.decode "error decoding response body",
          by simp [runOp, errorFromReqwest, hd]⟩

/-- C8: `get_episode_actions` issues a GET to
`api/2/episodes/{username}.json`; the query always carries `aggregated`,
carries `since` exactly when the `since` argument is present (with its
decimal rendering), and carries `podcast` exactly when the `podcast`
argument is present (with its serialized URL). -/
theorem claim_C8_get_episode_actions_query (c : AuthenticatedClient)
    (podcast : Option Url) (since : Option Nat) (aggregated : Bool) :
    (c.get_episode_actions podcast since aggregated).method = Method.GET ∧
      (c.get_episode_actions podcast since aggregated).url
        = "https://gpodder.net/api/2/episodes/" ++ c.username ++ ".json" ∧
      lookupValue (c.get_episode_actions podcast since aggregated).query
          "aggregated" = some (boolString aggregated) ∧
      lookupValue (c.get_episode_actions podcast since aggregated).query
          "since" = since.map natRepr ∧
      lookupValue (c.get_episode_actions podcast since aggregated).query
          "podcast" = podcast.map Url.render := by
  cases since <;> cases podcast <;>
    simp [AuthenticatedClient.get_episode_actions,
      AuthenticatedClient.get_with_query, lookupValue, natRepr_ne_empty,
      render_ne_empty]

/-- C9: per the subscription synchronization contract, uploading the delta
that adds a URL not currently subscribed and then the delta that removes
it leaves the subscription set of the device as it was before both calls;
the outgoing request of each upload carries exactly the add/remove lists
as its JSON body. -/
theorem claim_C9_delta_idempotence (d : DeviceClient) (S : Finset String)
    (X : String) (hX : X ∉ S) :
    (d.upload_subscription_changes [X] []).body
        = some (uploadSubscriptionChangesJson [X] []) ∧
      applySubscriptionDelta (applySubscriptionDelta S [X] []) [] [X] = S := by
  refine ⟨rfl, ?_⟩
  ext y
  by_cases hy : y = X
  · subst hy
    simp [applySubscriptionDelta, hX]
  · simp [applySubscriptionDelta, hy]

/-- C9 witness: the add-then-remove round trip at a concrete subscription
set and a concrete fresh URL. -/
theorem claim_C9_witness :
    (sampleDeviceClient.upload_subscription_changes
          ["http://x.example/f.rss"] []).body
        = some (uploadSubscriptionChangesJson ["http://x.example/f.rss"] []) ∧
      applySubscriptionDelta
          (applySubscriptionDelta {"http://a.example/feed.rss"}
            ["http://x.example/f.rss"] [])
          [] ["http://x.example/f.rss"]
        = {"http://a.example/feed.rss"} :=
  claim_C9_delta_idempotence sampleDeviceClient {"http://a.example/feed.rss"}
    "http://x.example/f.rss" (by decide)

end Mygpo
